import Mathlib

/-!
Verification of the Garden orchestrator core (`garden.ts`).

The definitions below are a shallow embedding of the `Garden` class and the
collaborating data of the source file: module/workflow/provider configuration
records, the provider-resolution pipeline, module graph augmentation, content
version resolution with its cache, and configuration dumping.  Stateful
methods are embedded as explicit state-passing functions over `GardenState`;
thrown exceptions become `Except` errors carrying the error taxonomy
(`ConfigurationError` / `PluginError` / ...) as an `ErrorKind` tag.
Collaborators that live outside the inspected file (the VCS content-hashing
service, the task engine, file-system path resolution) are passed in as
explicit function parameters, and repository code that the inspected file
calls but that is not part of the inspected source (cycle detection, the
cache, `getModuleKey`, `ConfigGraph` construction) is modelled from the
specification, as marked on each such definition.
-/

namespace Garden

/-! ## JavaScript string ordering

JS `Array.prototype.sort()` on strings and lodash `sortBy` compare strings
lexicographically by code unit.  We embed that comparison as a lexicographic
order on the character list of the string. -/

/-- Lexicographic strict order on character lists, embedding the default
JavaScript string comparison. -/
def charListLt : List Char → List Char → Bool
  | [], [] => false
  | [], _ :: _ => true
  | _ :: _, [] => false
  | a :: as, b :: bs => if a < b then true else if b < a then false else charListLt as bs

/-- JS `a < b` on strings. -/
def jsLt (a b : String) : Bool := charListLt a.data b.data

/-- JS `a <= b` on strings. -/
def jsLe (a b : String) : Bool := !(jsLt b a)

theorem charListLt_irrefl : ∀ l : List Char, charListLt l l = false := by
  intro l
  induction l with
  | nil => rfl
  | cons a as ih => simp [charListLt, ih]

theorem charListLt_asymm :
    ∀ {as bs : List Char}, charListLt as bs = true → charListLt bs as = false := by
  intro as
  induction as with
  | nil =>
    intro bs h
    cases bs with
    | nil => simp [charListLt] at h
    | cons b bs => simp [charListLt]
  | cons a as ih =>
    intro bs h
    cases bs with
    | nil => simp [charListLt] at h
    | cons b bs =>
      by_cases hab : a < b
      · have hba : ¬b < a := lt_asymm hab
        simp [charListLt, hab, hba, lt_irrefl] at *
      · by_cases hba : b < a
        · simp [charListLt, hab, hba] at h
        · simp only [charListLt, hab, hba, if_false] at h ⊢
          exact ih h

theorem charListLt_trans :
    ∀ {as bs cs : List Char}, charListLt as bs = true → charListLt bs cs = true →
      charListLt as cs = true := by
  intro as
  induction as with
  | nil =>
    intro bs cs h₁ h₂
    cases bs with
    | nil => simp [charListLt] at h₁
    | cons b bs =>
      cases cs with
      | nil => simp [charListLt] at h₂
      | cons c cs => simp [charListLt]
  | cons a as ih =>
    intro bs cs h₁ h₂
    cases bs with
    | nil => simp [charListLt] at h₁
    | cons b bs =>
      cases cs with
      | nil => simp [charListLt] at h₂
      | cons c cs =>
        by_cases hab : a < b
        · by_cases hbc : b < c
          · have hac : a < c := lt_trans hab hbc
            simp [charListLt, hac]
          · by_cases hcb : c < b
            · simp [charListLt, hbc, hcb] at h₂
            · have hbc' : b = c := le_antisymm (not_lt.mp hcb) (not_lt.mp hbc)
              subst hbc'
              simp [charListLt, hab]
        · by_cases hba : b < a
          · simp [charListLt, hab, hba] at h₁
          · have hab' : a = b := le_antisymm (not_lt.mp hba) (not_lt.mp hab)
            subst hab'
            by_cases hac : a < c
            · simp [charListLt, hac]
            · by_cases hca : c < a
              · simp [charListLt, hac, hca] at h₂
              · simp only [charListLt, hac, hca, if_false] at h₂ ⊢
                simp only [charListLt, lt_irrefl, if_false] at h₁
                exact ih h₁ h₂

theorem charListLt_eq_of_not :
    ∀ {as bs : List Char}, charListLt as bs = false → charListLt bs as = false → as = bs := by
  intro as
  induction as with
  | nil =>
    intro bs h₁ _
    cases bs with
    | nil => rfl
    | cons b bs => simp [charListLt] at h₁
  | cons a as ih =>
    intro bs h₁ h₂
    cases bs with
    | nil => simp [charListLt] at h₂
    | cons b bs =>
      by_cases hab : a < b
      · simp [charListLt, hab] at h₁
      · by_cases hba : b < a
        · simp [charListLt, hba] at h₂
        · have hab' : a = b := le_antisymm (not_lt.mp hba) (not_lt.mp hab)
          subst hab'
          simp only [charListLt, lt_irrefl, if_false] at h₁ h₂
          exact congrArg (a :: ·) (ih h₁ h₂)

theorem jsLe_total (a b : String) : jsLe a b = true ∨ jsLe b a = true := by
  by_cases h : charListLt a.data b.data = true
  · left
    simp [jsLe, jsLt, charListLt_asymm h]
  · right
    simp only [Bool.not_eq_true] at h
    simp [jsLe, jsLt, h]

theorem jsLe_trans {a b c : String} (h₁ : jsLe a b = true) (h₂ : jsLe b c = true) :
    jsLe a c = true := by
  simp only [jsLe, jsLt, Bool.not_eq_true', Bool.not_eq_true] at h₁ h₂ ⊢
  by_cases hca : charListLt c.data a.data = true
  · by_cases hab : charListLt a.data b.data = true
    · have : charListLt c.data b.data = true := charListLt_trans hca hab
      rw [this] at h₂
      exact absurd h₂ (by simp)
    · simp only [Bool.not_eq_true] at hab
      have : a.data = b.data := charListLt_eq_of_not hab h₁
      rw [this] at hca
      rw [hca] at h₂
      exact absurd h₂ (by simp)
  · simpa using hca

theorem jsLe_antisymm {a b : String} (h₁ : jsLe a b = true) (h₂ : jsLe b a = true) : a = b := by
  simp only [jsLe, jsLt, Bool.not_eq_true'] at h₁ h₂
  have hdata : a.data = b.data := charListLt_eq_of_not h₂ h₁
  cases a
  cases b
  exact congrArg String.mk hdata

/-- Ordering of records by a string projection, as used by lodash
`sortBy(xs, "name")` and JS `Array.prototype.sort()`. -/
def jsLeOn (f : α → String) (a b : α) : Prop := jsLe (f a) (f b) = true

instance (f : α → String) : DecidableRel (jsLeOn f) := fun a b =>
  inferInstanceAs (Decidable (jsLe (f a) (f b) = true))

instance (f : α → String) : IsTotal α (jsLeOn f) := ⟨fun a b => jsLe_total (f a) (f b)⟩

instance (f : α → String) : IsTrans α (jsLeOn f) := ⟨fun _ _ _ => jsLe_trans⟩

instance : IsAntisymm String (jsLeOn id) := ⟨fun _ _ h₁ h₂ => jsLe_antisymm h₁ h₂⟩

/-- JS `names.sort()` on an array of strings. -/
def jsSortStrings (l : List String) : List String := List.insertionSort (jsLeOn id) l

theorem jsSortStrings_perm_eq {l₁ l₂ : List String} (h : List.Perm l₁ l₂) :
    jsSortStrings l₁ = jsSortStrings l₂ :=
  List.eq_of_perm_of_sorted
    ((List.perm_insertionSort _ _).trans (h.trans (List.perm_insertionSort _ _).symm))
    (List.sorted_insertionSort _ _) (List.sorted_insertionSort _ _)

/-! ## JavaScript string splitting (`key.split(".")`) -/

/-- Splitting of a character list at a separator character, embedding JS
`String.prototype.split` with a single-character separator. -/
def splitOnChar (sep : Char) : List Char → List (List Char)
  | [] => [[]]
  | c :: rest =>
    match splitOnChar sep rest with
    | [] => [[]]
    | r :: rs => if c = sep then [] :: r :: rs else (c :: r) :: rs

/-- JS `s.split(sep)` for a one-character separator. -/
def jsSplit (sep : Char) (s : String) : List String :=
  (splitOnChar sep s.data).map List.asString

theorem splitOnChar_ne_nil (sep : Char) : ∀ l : List Char, splitOnChar sep l ≠ [] := by
  intro l
  cases l with
  | nil => simp [splitOnChar]
  | cons c rest =>
    simp only [splitOnChar]
    match splitOnChar sep rest with
    | [] => simp
    | r :: rs =>
      by_cases h : c = sep <;> simp [h]

theorem splitOnChar_no_sep {sep : Char} :
    ∀ {l : List Char}, sep ∉ l → splitOnChar sep l = [l] := by
  intro l
  induction l with
  | nil => intro _; rfl
  | cons c rest ih =>
    intro h
    have hc : c ≠ sep := fun hc => h (hc ▸ List.mem_cons_self c rest)
    have hrest : sep ∉ rest := fun hr => h (List.mem_cons_of_mem c hr)
    simp [splitOnChar, ih hrest, hc]

theorem splitOnChar_append {sep : Char} :
    ∀ {t : List Char} (n : List Char), sep ∉ t →
      splitOnChar sep (t ++ sep :: n) = t :: splitOnChar sep n := by
  intro t
  induction t with
  | nil =>
    intro n _
    simp only [List.nil_append, splitOnChar]
    match h : splitOnChar sep n with
    | [] => exact absurd h (splitOnChar_ne_nil sep n)
    | r :: rs => simp
  | cons c rest ih =>
    intro n h
    have hc : c ≠ sep := fun hc => h (hc ▸ List.mem_cons_self c rest)
    have hrest : sep ∉ rest := fun hr => h (List.mem_cons_of_mem c hr)
    simp only [List.cons_append, splitOnChar, List.append_eq, ih n hrest, hc, if_false]

/-! ## Error taxonomy

The source throws `ConfigurationError`, `PluginError`, `RuntimeError` (from
`./exceptions`) and the utility `ParameterError` (thrown by `pickKeys` /
`findByNames`).  Each carries a message and a structured detail payload; we
keep the payload parts the claims inspect. -/

/-- Tag distinguishing the error classes of `./exceptions` used by the file. -/
inductive ErrorKind
  | configuration
  | plugin
  | runtime
  | parameter
deriving DecidableEq

/-- An error thrown by the orchestrator: its class, its message, and the parts
of the structured detail payload that the claims inspect (`detail` for lists
of offending items, `cycles` for circular-dependency reports). -/
structure GardenError where
  kind : ErrorKind
  message : String
  detail : List String := []
  cycles : List (List (List String)) := []
deriving DecidableEq

/-! ## Data model -/

/-- One entry of `moduleConfig.build.dependencies`
(`BuildDependencyConfig` from `config/module`). -/
structure BuildDependencyConfig where
  name : String
  plugin : Option String := none
  copy : List String := []
deriving DecidableEq

/-- The `build` section of a module config. -/
structure BuildSpec where
  dependencies : List BuildDependencyConfig := []
deriving DecidableEq

/-- A raw module configuration (`ModuleConfig` from `config/module`), with the
fields the inspected code reads. -/
structure ModuleConfig where
  name : String
  plugin : Option String := none
  path : String := ""
  build : BuildSpec := {}
  disabled : Bool := false
deriving DecidableEq

/-- A workflow configuration (`WorkflowConfig` from `config/workflow`). -/
structure WorkflowConfig where
  name : String
  path : String := ""
deriving DecidableEq

/-- A module version (`ModuleVersion` from `vcs/vcs`). -/
structure ModuleVersion where
  versionString : String
  dependencyVersions : List (String × String) := []
  files : List String := []
deriving DecidableEq

/-- A resolved module, as produced by `ResolveModuleTask`: its (resolved)
configuration plus the computed version.  The source's `Module` also carries a
`buildDependencies` map from dependency key to the dependency `Module`; that
map is recomputed at the end of `getConfigGraph` and our embedding of that
step returns it alongside each module (see `recomputeBuildDependencies`). -/
structure Module where
  config : ModuleConfig
  version : ModuleVersion
deriving DecidableEq

/-- Source field access `module.name`. -/
def Module.name (m : Module) : String := m.config.name

/-- Environment-readiness report of a provider. -/
structure ProviderStatus where
  ready : Bool := true
  cached : Bool := false
deriving DecidableEq

/-- A resolved provider (`Provider` from `config/provider`), with the fields
the inspected code reads.  `tools` stands for the internal tool handles that
`dumpConfig` omits. -/
structure Provider where
  name : String
  dependencies : List String := []
  moduleConfigs : List ModuleConfig := []
  status : ProviderStatus := {}
  tools : List String := []
deriving DecidableEq

/-- Modelled from the spec: `getModuleKey` (from `types/module`, not under
`src/`) — the unique module key is plugin-qualified when `plugin` is set,
else the bare name (§3 ModuleConfig). -/
def getModuleKey (name : String) (plugin : Option String) : String :=
  match plugin with
  | some p => p ++ "--" ++ name
  | none => name

/-- Key of a resolved module. -/
def Module.key (m : Module) : String := getModuleKey m.config.name m.config.plugin

/-! ## The cache collaborator -/

/-- One entry of the tree cache: a key, the stored value, and the cache
contexts the entry was registered under. -/
structure CacheEntry where
  key : List String
  value : ModuleVersion
  contexts : List (List String)
deriving DecidableEq

/-- Modelled from the spec: the generic cache collaborator (`TreeCache` from
`./cache`, not under `src/`) with contract `get(key) -> value?`,
`set(key, value, ...contexts)`, invalidation by context (§6).  `set` replaces
any previous entry under the same key; `get` returns the stored value. -/
structure TreeCache where
  entries : List CacheEntry := []
deriving DecidableEq

/-- Cache lookup, `cache.get(key)`. -/
def TreeCache.get (c : TreeCache) (key : List String) : Option ModuleVersion :=
  (c.entries.find? (fun e => e.key == key)).map (fun e => e.value)

/-- Cache store, `cache.set(key, value, ...contexts)`. -/
def TreeCache.set (c : TreeCache) (key : List String) (v : ModuleVersion)
    (contexts : List (List String)) : TreeCache :=
  { entries := ⟨key, v, contexts⟩ :: c.entries.filter (fun e => !(e.key == key)) }

theorem TreeCache.get_set (c : TreeCache) (key : List String) (v : ModuleVersion)
    (contexts : List (List String)) : (c.set key v contexts).get key = some v := by
  simp [TreeCache.get, TreeCache.set, List.find?]

/-! ## Orchestrator state

The mutable fields of the `Garden` instance that the embedded methods touch:
the raw module/workflow config registries, the resolved-provider registry and
the version cache.  (`configsScanned` is taken to be `true`: every embedded
call site runs after `scanAndAddConfigs`, making `getRawModuleConfigs` a pure
registry read.) -/

structure GardenState where
  moduleConfigs : List (String × ModuleConfig) := []
  workflowConfigs : List (String × WorkflowConfig) := []
  resolvedProviders : List (String × Provider) := []
  cache : TreeCache := {}
deriving DecidableEq

/-! ## addModule (duplicate module keys) -/

/-- Embedding of `Garden.addModule`.  `relConfigPath` is the collaborator
composition `relative(projectRoot, await getConfigFilePath(path))` (from
`path` / `util/fs`, outside the inspected file): it maps a module's directory
to its config file path relative to the project root.  On a duplicate key the
source sorts the two relative paths with JS `Array.prototype.sort()` and
throws a `ConfigurationError` naming both. -/
def addModule (relConfigPath : String → String) (g : GardenState)
    (config : ModuleConfig) : Except GardenError GardenState :=
  let key := getModuleKey config.name config.plugin
  match g.moduleConfigs.lookup key with
  | some existing =>
    let p₁ := relConfigPath existing.path
    let p₂ := relConfigPath config.path
    let pathA := if jsLe p₁ p₂ then p₁ else p₂
    let pathB := if jsLe p₁ p₂ then p₂ else p₁
    .error
      { kind := .configuration,
        message := "Module " ++ key ++ " is declared multiple times (in '" ++ pathA ++
          "' and '" ++ pathB ++ "')",
        detail := [pathA, pathB] }
  | none => .ok { g with moduleConfigs := g.moduleConfigs ++ [(key, config)] }

/-! ## Version resolution (`Garden.resolveVersion`) -/

/-- The fields of a `Module | BuildDependencyConfig` union member that
`resolveVersion` reads: `name` and `plugin`. -/
structure DepRef where
  name : String
  plugin : Option String := none
deriving DecidableEq

/-- The VCS content-hashing collaborator (`VcsHandler` from `vcs/vcs`,
outside the inspected file).  `resolve` is its `resolveVersion(log,
moduleConfig, dependencies)` operation; `isDirty` is the dirty/uncommitted
state it reports for a module (§6: "reports dirty/clean state").  The
inspected file only ever calls `resolve`. -/
structure VcsHandlerModel where
  resolve : ModuleConfig → List ModuleConfig → ModuleVersion
  isDirty : ModuleConfig → Bool

/-- Modelled from the spec: `getModuleCacheContext` (from `types/module`, not
under `src/`) ties a cache entry to the module's path (§4.3: contexts change
when underlying file content changes). -/
def getModuleCacheContext (c : ModuleConfig) : List String := ["path", c.path]

/-- The version cache key: `["moduleVersions", moduleName, ...depModuleNames]`
with the dependency names sorted by JS `Array.prototype.sort()`. -/
def versionCacheKey (moduleConfig : ModuleConfig) (moduleDependencies : List DepRef) :
    List String :=
  "moduleVersions" :: moduleConfig.name :: jsSortStrings (moduleDependencies.map DepRef.name)

/-- Embedding of `pickKeys(this.moduleConfigs, keys, "module config")` inside
`getRawModuleConfigs`: every requested key must be registered (missing keys
are a fatal `ParameterError`), and the picked configs come back in key
order. -/
def pickModuleConfigs (g : GardenState) (keys : List String) :
    Except GardenError (List ModuleConfig) :=
  let missing := keys.filter (fun k => (g.moduleConfigs.lookup k).isNone)
  if missing = [] then
    .ok (keys.filterMap (fun k => g.moduleConfigs.lookup k))
  else
    .error
      { kind := .parameter,
        message := "Could not find module config(s): " ++ String.intercalate ", " missing,
        detail := missing }

/-- The cache-miss path of `Garden.resolveVersion`: look up the dependency
configs by key, call the VCS collaborator, and store the fresh version in the
cache under the module/sorted-dependency-names key with the cache contexts of
all involved configs. -/
def computeModuleVersion (g : GardenState) (vcs : VcsHandlerModel)
    (moduleConfig : ModuleConfig) (moduleDependencies : List DepRef) :
    Except GardenError (ModuleVersion × GardenState) :=
  let dependencyKeys := moduleDependencies.map (fun dep => getModuleKey dep.name dep.plugin)
  match pickModuleConfigs g dependencyKeys with
  | .error e => .error e
  | .ok dependencies =>
    let cacheContexts := (dependencies ++ [moduleConfig]).map getModuleCacheContext
    let version := vcs.resolve moduleConfig dependencies
    let cache := g.cache.set (versionCacheKey moduleConfig moduleDependencies) version cacheContexts
    .ok (version, { g with cache := cache })

/-- Embedding of `Garden.resolveVersion(moduleConfig, moduleDependencies,
force)`: unless `force` is set, a cached version under
`(moduleName, sorted dependency names)` is returned as-is; otherwise the
version is computed through the VCS collaborator and cached. -/
def resolveVersion (g : GardenState) (vcs : VcsHandlerModel)
    (moduleConfig : ModuleConfig) (moduleDependencies : List DepRef)
    (force : Bool := false) : Except GardenError (ModuleVersion × GardenState) :=
  match (if force then none else g.cache.get (versionCacheKey moduleConfig moduleDependencies)) with
  | some cached => .ok (cached, g)
  | none => computeModuleVersion g vcs moduleConfig moduleDependencies

/-! ## DependencyValidationGraph -/

/-- The generic directed-graph utility (`DependencyValidationGraph` from
`util/validate-dependencies`, not under `src/`): nodes plus
`(node, dependsOn)` edges. -/
structure DependencyValidationGraph where
  nodes : List String := []
  edges : List (String × String) := []
deriving DecidableEq

/-- `graph.addNode(id)`. -/
def DependencyValidationGraph.addNode (g : DependencyValidationGraph) (id : String) :
    DependencyValidationGraph :=
  if g.nodes.contains id then g else { g with nodes := g.nodes ++ [id] }

/-- `graph.addDependency(id, dependsOn)`. -/
def DependencyValidationGraph.addDependency (g : DependencyValidationGraph)
    (id dependsOn : String) : DependencyValidationGraph :=
  if g.edges.contains (id, dependsOn) then g
  else { g with edges := g.edges ++ [(id, dependsOn)] }

/-- Successors of a node along dependency edges. -/
def graphSuccs (edges : List (String × String)) (n : String) : List String :=
  (edges.filter (fun e => e.1 == n)).map (fun e => e.2)

/-- Simple paths from `current` back to `target` along `edges`, avoiding
nodes already in `seen`; fuel-bounded depth-first search. -/
def cyclePathsAux (edges : List (String × String)) (target : String) :
    Nat → String → List String → List (List String)
  | 0, _, _ => []
  | Nat.succ fuel, current, seen =>
    (graphSuccs edges current).flatMap (fun nxt =>
      (if nxt == target then [seen ++ [current]] else []) ++
      (if (seen ++ [current]).contains nxt ∨ nxt == target then []
       else cyclePathsAux edges target fuel nxt (seen ++ [current])))

/-- Modelled from the spec: `detectCircularDependencies()` (§4.2) — detects
cycles of any length, including self-loops, and returns every distinct cycle
(each cycle is reported once, anchored at its least node to drop
rotations). -/
def DependencyValidationGraph.detectCircularDependencies
    (g : DependencyValidationGraph) : List (List String) :=
  g.nodes.flatMap (fun n =>
    (cyclePathsAux g.edges n g.nodes.length n []).filter (fun c =>
      c.all (fun m => jsLe n m)))

/-- Modelled from the spec: `cyclesToString(cycles)` (§4.2) renders each cycle
as an ordered loop of node ids. -/
def cyclesToString (cycles : List (List String)) : String :=
  String.intercalate "\n"
    (cycles.map (fun c => String.intercalate " <- " (c ++ c.take 1)))

/-! ## Provider resolution (`Garden.resolveProviders` / `resolveProvider`) -/

/-- A raw provider configuration together with the plugin's dependency names.
`dependencyNames` stands for the result of
`getAllProviderDependencyNames(plugin, config)` (from `config/provider`,
outside the inspected file): the plugin's explicit dependency list plus any
dependencies implied by configuration references. -/
structure ProviderConfig where
  name : String
  dependencyNames : List String := []
deriving DecidableEq

/-- A `TaskResult` as returned by the task graph for one
`ResolveProviderTask`, with the fields the aggregation code reads. -/
structure TaskResult where
  name : String
  error : Option String := none
  output : Option Provider := none
deriving DecidableEq

/-- Embedding of `findByNames(names, this.providerConfigs, "provider")`
inside `getRawProviderConfigs(names)`: unknown names are a fatal
`ParameterError`; the found configs keep registration order. -/
def findByNames (names : List String) (configs : List ProviderConfig) :
    Except GardenError (List ProviderConfig) :=
  let missing := names.filter (fun n => !(configs.any (fun c => c.name == n)))
  if missing = [] then
    .ok (configs.filter (fun c => names.contains c.name))
  else
    .error
      { kind := .parameter,
        message := "Could not find provider(s): " ++ String.intercalate ", " missing,
        detail := missing }

/-- The cycle pre-pass of `resolveProviders`: one node per plugin, one node
per declared dependency name, one edge from the plugin to each of its
dependency names. -/
def buildValidationGraph (rawConfigs : List ProviderConfig) : DependencyValidationGraph :=
  rawConfigs.foldl
    (fun graph config =>
      (config.dependencyNames.foldl
        (fun graph' dep => ((graph' : DependencyValidationGraph).addNode dep).addDependency config.name dep)
        (graph.addNode config.name)))
    {}

/-- The `PluginError` thrown when the provider dependency pre-pass finds
cycles. -/
def providerCycleError (cycles : List (List String)) : GardenError :=
  { kind := .plugin,
    message := "One or more circular dependencies found between providers or their configurations:\n\n"
      ++ cyclesToString cycles }

/-- One line of the failure detail for a failed provider task. -/
def providerFailLine (r : TaskResult) : String :=
  "- " ++ r.name ++ ": " ++ r.error.getD ""

/-- The `PluginError` thrown when at least one provider task failed: the
message lists every failed provider name, the detail carries one
name-plus-message line per failure. -/
def failedProvidersError (failed : List TaskResult) : GardenError :=
  { kind := .plugin,
    message := "Failed resolving one or more providers:\n- "
      ++ String.intercalate "\n- " (failed.map (fun r => r.name)),
    detail := failed.map providerFailLine }

/-- Insert-or-replace into an association list, embedding
`this.resolvedProviders[provider.name] = provider`. -/
def assocSet (m : List (String × Provider)) (key : String) (p : Provider) :
    List (String × Provider) :=
  (m.filter (fun e => !(e.1 == key))) ++ [(key, p)]

/-- After successful provider resolution, every provider's contributed module
configs are registered through `addModule`, scoped to the provider
(`moduleConfig.plugin = provider.name`). -/
def registerProviderModules (relConfigPath : String → String) (g : GardenState)
    (providers : List Provider) : Except GardenError GardenState :=
  providers.foldlM
    (fun gs p =>
      p.moduleConfigs.foldlM
        (fun gs' mc => addModule relConfigPath gs' { mc with plugin := some p.name })
        gs)
    g

deriving instance DecidableEq for Except

/-- Outcome of one `resolveProviders` call: the returned provider map (or the
thrown error), the updated orchestrator state, and — for the temporal claims —
which `ResolveProviderTask`s were created and which were processed by the task
graph. -/
structure ResolveProvidersOutcome where
  result : Except GardenError (List (String × Provider))
  state : GardenState
  tasksCreated : List String := []
  tasksProcessed : List String := []
deriving DecidableEq

/-- Embedding of `Garden.resolveProviders(forceInit, names)`.  `runTasks`
stands for `this.processTasks(tasks, { unlimitedConcurrency: true })` over the
created `ResolveProviderTask`s (the task engine is outside the inspected
file); it receives `forceInit` and the provider names of the created tasks.
The secret-key pre-check (`throwOnMissingSecretKeys`) is orthogonal to the
claims and elided.  Steps, in source order: resolve the requested configs,
return early if all requested providers are already resolved, build the
dependency validation graph and fail on cycles before creating any task,
process the tasks, fail if any task errored, then register contributed module
configs and record the resolved providers. -/
def resolveProviders (relConfigPath : String → String) (g : GardenState)
    (runTasks : Bool → List String → List TaskResult)
    (providerConfigs : List ProviderConfig) (forceInit : Bool := false)
    (names? : Option (List String) := none) : ResolveProvidersOutcome :=
  let rawConfigsE : Except GardenError (List ProviderConfig) :=
    match names? with
    | some ns => findByNames ns providerConfigs
    | none => .ok providerConfigs
  match rawConfigsE with
  | .error e => { result := .error e, state := g }
  | .ok rawConfigs =>
    let names : List String :=
      match names? with
      | some ns => ns
      | none => rawConfigs.map (fun c => c.name)
    let alreadyResolvedProviders := names.filterMap (fun n => g.resolvedProviders.lookup n)
    if alreadyResolvedProviders.length = names.length then
      { result := .ok (alreadyResolvedProviders.map (fun p => (p.name, p))), state := g }
    else
      let cycles := (buildValidationGraph rawConfigs).detectCircularDependencies
      if cycles = [] then
        let tasks := rawConfigs.map (fun c => c.name)
        let taskResults := runTasks forceInit tasks
        let failed := taskResults.filter (fun r => r.error.isSome)
        if failed = [] then
          let providers := taskResults.filterMap (fun r => r.output)
          match registerProviderModules relConfigPath g providers with
          | .error e =>
            { result := .error e, state := g,
              tasksCreated := tasks, tasksProcessed := taskResults.map (fun r => r.name) }
          | .ok g₁ =>
            let g₂ := { g₁ with
              resolvedProviders :=
                providers.foldl (fun m p => assocSet m p.name p) g₁.resolvedProviders }
            { result := .ok (providers.map (fun p => (p.name, p))), state := g₂,
              tasksCreated := tasks, tasksProcessed := taskResults.map (fun r => r.name) }
        else
          { result := .error (failedProvidersError failed), state := g,
            tasksCreated := tasks, tasksProcessed := taskResults.map (fun r => r.name) }
      else
        { result := .error (providerCycleError cycles), state := g }

/-- Modelled from the spec: the built-in default provider constant
(`defaultProvider` from `config/provider`, not under `src/`), registered
under the reserved name `_default`. -/
def defaultProvider : Provider := { name := "_default" }

/-- The `PluginError` thrown by `resolveProvider` when the requested provider
is not in the resolved set. -/
def providerNotFoundError (name : String) (providerNames : List String) : GardenError :=
  { kind := .plugin,
    message := "Could not find provider '" ++ name ++
      "' (configured providers: " ++ String.intercalate ", " providerNames ++ ")",
    detail := providerNames }

/-- Embedding of `Garden.resolveProvider(name)`: the reserved name
`_default` short-circuits to the built-in default provider; otherwise the
resolved-provider registry is consulted and, on a miss, a
`resolveProviders(false, [name])` run is triggered. -/
def resolveProvider (relConfigPath : String → String) (g : GardenState)
    (runTasks : Bool → List String → List TaskResult)
    (providerConfigs : List ProviderConfig) (name : String) :
    Except GardenError Provider × GardenState :=
  if name = "_default" then (.ok defaultProvider, g)
  else
    match g.resolvedProviders.lookup name with
    | some p => (.ok p, g)
    | none =>
      let outcome := resolveProviders relConfigPath g runTasks providerConfigs false (some [name])
      match outcome.result with
      | .error e => (.error e, outcome.state)
      | .ok providers =>
        match providers.lookup name with
        | some p => (.ok p, outcome.state)
        | none =>
          (.error (providerNotFoundError name (providers.map (fun e => e.1))), outcome.state)

/-! ## Module resolution error handling (`Garden.getConfigGraph`) -/

/-- The error thrown by the task graph when it detects circular dependencies
among the scheduled tasks: `type: "circular-dependencies"` plus the cycle
report over internal task keys (each key of the form
`<taskType>.<moduleName>`). -/
structure TaskGraphError where
  type : String := "circular-dependencies"
  message : String := ""
  cycles : List (List (List String)) := []
deriving DecidableEq

/-- A `TaskResult` of one `ResolveModuleTask`. -/
structure ModuleTaskResult where
  name : String
  error : Option String := none
  output : Option Module := none
deriving DecidableEq

/-- Embedding of `key.split(".")[1]` applied to an internal task key: the
module-name segment of the key, with the task-type prefix stripped.  (In JS
the index is `undefined` when the key has no dot; that value is embedded as
the string `"undefined"`, a case no well-formed task key hits.) -/
def stripKey (key : String) : String :=
  ((jsSplit '.' key).get? 1).getD "undefined"

/-- JS `cycles.join("\n")` over the stripped, nested cycle arrays
(nested arrays stringify with commas). -/
def jsJoinCycles (cycles : List (List (List String))) : String :=
  String.intercalate "\n"
    (cycles.map (fun c => String.intercalate "," (c.map (String.intercalate ","))))

/-- The `ConfigurationError` that `getConfigGraph` wraps a circular-dependency
task error into: each task key of each cycle is reduced to its module-name
segment. -/
def moduleCyclesError (rawCycles : List (List (List String))) : GardenError :=
  let cycles := rawCycles.map (fun c => c.map (fun cycle => cycle.map stripKey))
  { kind := .configuration,
    message := "Detected one or more circular dependencies between module configurations:\n\n"
      ++ jsJoinCycles cycles,
    cycles := cycles }

/-- The `ConfigurationError` aggregating all failed module-resolution
tasks. -/
def failedModulesError (failed : List ModuleTaskResult) : GardenError :=
  { kind := .configuration,
    message := "Failed resolving one or more modules:\n\n"
      ++ String.intercalate "\n" (failed.map (fun r => r.name ++ ": " ++ r.error.getD "")),
    detail := failed.map (fun r => r.name) }

/-- Embedding of the `try { results = await this.processTasks(...) } catch`
block of `getConfigGraph` plus the subsequent per-task failure scan: a thrown
`circular-dependencies` error is wrapped into a `ConfigurationError` over
module names (`Sum.inr`); any other thrown error is rethrown unchanged
(`Sum.inl`); otherwise all failed task results aggregate into one
`ConfigurationError`, and on full success the resolved modules are
extracted. -/
def handleModuleTaskResults (res : Except TaskGraphError (List ModuleTaskResult)) :
    Except (Sum TaskGraphError GardenError) (List Module) :=
  match res with
  | .error err =>
    if err.type = "circular-dependencies" then .error (.inr (moduleCyclesError err.cycles))
    else .error (.inl err)
  | .ok results =>
    let failed := results.filter (fun r => r.error.isSome)
    if failed = [] then .ok (results.filterMap (fun r => r.output))
    else .error (.inr (failedModulesError failed))

/-! ## Graph augmentation (`augmentGraph` handling in `getConfigGraph`) -/

/-- One entry of `addBuildDependencies` returned by a plugin's `augmentGraph`
handler.  The source fields are named `by` and `on`. -/
structure AddBuildDependency where
  byModule : String
  onModule : String
deriving DecidableEq

/-- Replace the first list element satisfying `p`, embedding an in-place
mutation of the object found by `findByName`. -/
def updateFirst (p : α → Bool) (f : α → α) : List α → List α
  | [] => []
  | x :: xs => if p x then f x :: xs else x :: updateFirst p f xs

/-- The in-place `by.build.dependencies.push({ name: dependency.on, copy: [] })`. -/
def pushBuildDep (onName : String) (m : Module) : Module :=
  { m with config := { m.config with build :=
      { dependencies := m.config.build.dependencies ++ [{ name := onName, copy := [] }] } } }

/-- The `PluginError` thrown when an added build dependency's `by` module is
not among the resolved modules; it names the provider, the `by` module and
the `on` module. -/
def missingByError (providerName : String) (dep : AddBuildDependency) : GardenError :=
  { kind := .plugin,
    message := "Provider '" ++ providerName ++ "' added a build dependency by module '" ++
      dep.byModule ++ "' on '" ++ dep.onModule ++ "' but module '" ++ dep.byModule ++
      "' could not be found." }

/-- Embedding of the `addBuildDependencies` loop of `getConfigGraph`: for each
added dependency, only `by` is validated (`findByName(resolvedModules,
dependency.by)`); a missing `by` is a fatal `PluginError`, otherwise the edge
is pushed onto the `by` module's build dependencies.  Whether the `on`
reference exists is deliberately not checked here (see the source comment: it
is validated when initiating the `ConfigGraph`). -/
def applyAddBuildDependencies (providerName : String) (resolvedModules : List Module) :
    List AddBuildDependency → Except GardenError (List Module)
  | [] => .ok resolvedModules
  | dep :: rest =>
    match resolvedModules.find? (fun m => m.name == dep.byModule) with
    | none => .error (missingByError providerName dep)
    | some _ =>
      applyAddBuildDependencies providerName
        (updateFirst (fun m => m.name == dep.byModule) (pushBuildDep dep.onModule)
          resolvedModules) rest

/-- Build-dependency references of `modules` whose target key is not among
the module keys: pairs of (module name, missing dependency key). -/
def missingDepRefs (modules : List Module) : List (String × String) :=
  modules.flatMap (fun m =>
    m.config.build.dependencies.filterMap (fun d =>
      let key := getModuleKey d.name d.plugin
      if modules.any (fun n => n.key == key) then none else some (m.name, key)))

/-- The resulting `ConfigGraph` view: the fixed set of resolved modules. -/
structure ConfigGraph where
  modules : List Module
deriving DecidableEq

/-- Modelled from the spec: `ConfigGraph` construction (`config-graph.ts`,
not under `src/`) validates that every build-dependency reference resolves to
an existing module and that the build dependencies are cycle-free; missing
dependency targets and circular dependencies are fatal `ConfigurationError`s
(§3, §7, and the source comment "whether all `on` references exist + circular
deps will be validated when initiating the ConfigGraph"). -/
def ConfigGraph.init (modules : List Module) : Except GardenError ConfigGraph :=
  let missing := missingDepRefs modules
  if missing = [] then
    let graph := modules.foldl
      (fun gr m =>
        m.config.build.dependencies.foldl
          (fun gr' d =>
            ((gr' : DependencyValidationGraph).addNode (getModuleKey d.name d.plugin)).addDependency
              m.key (getModuleKey d.name d.plugin))
          (gr.addNode m.key))
      ({} : DependencyValidationGraph)
    let cycles := graph.detectCircularDependencies
    if cycles = [] then .ok ⟨modules⟩
    else
      .error
        { kind := .configuration,
          message := "Detected circular build dependencies between modules:\n\n"
            ++ cyclesToString cycles,
          cycles := [cycles] }
  else
    .error
      { kind := .configuration,
        message := "Missing build dependencies detected: "
          ++ String.intercalate ", " (missing.map (fun p => p.1 ++ " -> " ++ p.2)),
        detail := missing.map (fun p => p.1 ++ " -> " ++ p.2) }

/-- The `ConfigurationError` of the final build-dependency recomputation when
a module's build dependency key is not among the resolved modules. -/
def missingBuildDepError (moduleName depKey : String) : GardenError :=
  { kind := .configuration,
    message := "Module " ++ moduleName ++ " specifies build dependency " ++ depKey ++
      " which cannot be found.",
    detail := [depKey] }

/-- Embedding of the final pass of `getConfigGraph` (after augmentation):
for each resolved module, map every `build.dependencies` entry to the
resolved dependency module via the name-keyed module map (a miss is a fatal
`ConfigurationError`), then recompute the module's version through
`resolveVersion` with the resolved dependencies.  Returns each module with
its recomputed version and its `buildDependencies` map (dependency key to
dependency module), plus the updated orchestrator state. -/
def recomputeBuildDependencies (vcs : VcsHandlerModel) (g : GardenState)
    (resolvedModules : List Module) :
    Except GardenError (List (Module × List (String × Module)) × GardenState) :=
  let modulesByName := resolvedModules.map (fun m => (m.name, m))
  resolvedModules.foldlM
    (fun acc m =>
      match m.config.build.dependencies.mapM
          (fun d =>
            let key := getModuleKey d.name d.plugin
            match modulesByName.lookup key with
            | none => (.error (missingBuildDepError m.name key) : Except GardenError Module)
            | some dm => .ok dm) with
      | .error e => .error e
      | .ok buildDeps =>
        match resolveVersion acc.2 vcs m.config
            (buildDeps.map (fun dm => { name := dm.name, plugin := dm.config.plugin })) false with
        | .error e => .error e
        | .ok (version, g₁) =>
          .ok (acc.1 ++ [({ m with version := version },
            buildDeps.map (fun dm => (getModuleKey dm.name dm.config.plugin, dm)))], g₁))
    ([], g)

/-- One provider's graph-augmentation step followed by the finalization of
`getConfigGraph`: apply the provider's added build dependencies, re-initiate
the `ConfigGraph` (which validates `on` references and cycles), then
recompute every module's build-dependency map and version. -/
def augmentAndFinalizeGraph (providerName : String) (vcs : VcsHandlerModel)
    (g : GardenState) (resolvedModules : List Module)
    (addBuildDeps : List AddBuildDependency) :
    Except GardenError (ConfigGraph × List (Module × List (String × Module)) × GardenState) :=
  match applyAddBuildDependencies providerName resolvedModules addBuildDeps with
  | .error e => .error e
  | .ok mods =>
    match ConfigGraph.init mods with
    | .error e => .error e
    | .ok graph =>
      match recomputeBuildDependencies vcs g mods with
      | .error e => .error e
      | .ok (withDeps, g₁) => .ok (graph, withDeps, g₁)

/-! ## Config dumping (`Garden.dumpConfig`) -/

/-- Modelled from the spec: `ConfigGraph.getModules({ includeDisabled })`
(`config-graph.ts`, not under `src/`) returns the graph's modules, filtering
out disabled ones unless `includeDisabled` is set. -/
def ConfigGraph.getModules (graph : ConfigGraph) (includeDisabled : Bool) : List Module :=
  if includeDisabled then graph.modules
  else graph.modules.filter (fun m => !m.config.disabled)

/-- A provider as it appears in a `ConfigDump`: `omit(p, ["tools"])` — every
field of `Provider` except the internal tool handles. -/
structure ProviderNoTools where
  name : String
  dependencies : List String
  moduleConfigs : List ModuleConfig
  status : ProviderStatus
deriving DecidableEq

/-- lodash `omit(p, ["tools"])`. -/
def omitTools (p : Provider) : ProviderNoTools :=
  { name := p.name, dependencies := p.dependencies,
    moduleConfigs := p.moduleConfigs, status := p.status }

/-- The immutable `Garden` instance fields that `dumpConfig` copies into the
dump.  The source fields `namespace` and `variables` are embedded as
`namespaceName` and `projectVariables` (both are reserved words in Lean). -/
structure GardenInfo where
  environmentName : String
  namespaceName : Option String := none
  projectVariables : List (String × String) := []
  projectRoot : String := ""
  projectId : Option String := none
deriving DecidableEq

/-- The `ConfigDump` interface. -/
structure ConfigDump where
  environmentName : String
  namespaceName : Option String
  providers : List ProviderNoTools
  projectVariables : List (String × String)
  moduleConfigs : List ModuleConfig
  workflowConfigs : List WorkflowConfig
  projectRoot : String
  projectId : Option String
deriving DecidableEq

/-- lodash `sortBy(xs, "name")` for module configs. -/
def sortModuleConfigsByName (l : List ModuleConfig) : List ModuleConfig :=
  List.insertionSort (jsLeOn ModuleConfig.name) l

/-- lodash `sortBy(xs, "name")` for workflow configs. -/
def sortWorkflowConfigsByName (l : List WorkflowConfig) : List WorkflowConfig :=
  List.insertionSort (jsLeOn WorkflowConfig.name) l

/-- Embedding of `Garden.dumpConfig(log, includeDisabled)`.  `graph` is the
config graph built by `getConfigGraph`, `workflowConfigs` the resolved
workflow configs and `providers` the resolved providers, each produced by the
respective (already embedded) pipeline. -/
def dumpConfig (info : GardenInfo) (graph : ConfigGraph) (includeDisabled : Bool)
    (workflowConfigs : List WorkflowConfig) (providers : List Provider) : ConfigDump :=
  let modules := graph.getModules includeDisabled
  { environmentName := info.environmentName,
    namespaceName := info.namespaceName,
    providers := providers.map omitTools,
    projectVariables := info.projectVariables,
    moduleConfigs := sortModuleConfigsByName (modules.map (fun m => m.config)),
    workflowConfigs := sortWorkflowConfigsByName workflowConfigs,
    projectRoot := info.projectRoot,
    projectId := info.projectId }

/-! ## Concrete fixtures used by witnesses and counterexamples -/

/-- A module config named `web` whose config lives in directory `a-dir`. -/
def cfgWebA : ModuleConfig := { name := "web", path := "a-dir" }

/-- A module config also named `web`, from directory `b-dir`. -/
def cfgWebB : ModuleConfig := { name := "web", path := "b-dir" }

/-- A state in which the key `web` is already registered. -/
def gDup : GardenState := { moduleConfigs := [("web", cfgWebB)] }

/-- A plain module config. -/
def mcWeb : ModuleConfig := { name := "web", path := "web" }

/-- The version sitting in the cache in the dirty-cache scenario. -/
def vCached : ModuleVersion := { versionString := "v-cached" }

/-- The version a fresh VCS computation would produce in that scenario. -/
def vFresh : ModuleVersion := { versionString := "v-fresh" }

/-- A state whose version cache already holds an entry for `web` with no
dependencies. -/
def gCached : GardenState :=
  { cache := { entries := [⟨["moduleVersions", "web"], vCached, [["path", "web"]]⟩] } }

/-- A VCS collaborator that reports `web` (and everything else) as dirty and
would compute `vFresh`. -/
def vcsDirty : VcsHandlerModel := { resolve := fun _ _ => vFresh, isDirty := fun _ => true }

/-! ## Claim theorems -/

/-- C3: for every pair of module configs that map to the same module key,
adding the second one fails with a `ConfigurationError` whose message names
both conflicting config source paths (relative to the project root, via
`relConfigPath`) in sorted order, and the whole `addModule` operation is
fatal (no state is returned). -/
theorem addModule_duplicate_reports_sorted_paths (relConfigPath : String → String)
    (g : GardenState) (config existing : ModuleConfig)
    (h : g.moduleConfigs.lookup (getModuleKey config.name config.plugin) = some existing) :
    let p₁ := relConfigPath existing.path
    let p₂ := relConfigPath config.path
    let pathA := if jsLe p₁ p₂ then p₁ else p₂
    let pathB := if jsLe p₁ p₂ then p₂ else p₁
    addModule relConfigPath g config =
      .error
        { kind := .configuration,
          message := "Module " ++ getModuleKey config.name config.plugin ++
            " is declared multiple times (in '" ++ pathA ++ "' and '" ++ pathB ++ "')",
          detail := [pathA, pathB] } ∧
    jsLe pathA pathB = true := by
  intro p₁ p₂ pathA pathB
  constructor
  · simp only [addModule, h]
  · show jsLe (if jsLe p₁ p₂ then p₁ else p₂) (if jsLe p₁ p₂ then p₂ else p₁) = true
    by_cases hle : jsLe p₁ p₂ = true
    · rw [if_pos hle, if_pos hle]
      exact hle
    · rw [if_neg hle, if_neg hle]
      rcases jsLe_total p₁ p₂ with h₁ | h₂
      · exact absurd h₁ hle
      · exact h₂

/-- Witness for C3: the duplicate key `web`, declared in `b-dir` first and
`a-dir` second, is rejected with both paths named in sorted order. -/
theorem addModule_duplicate_reports_sorted_paths_witness :
    (gDup.moduleConfigs.lookup (getModuleKey cfgWebA.name cfgWebA.plugin) = some cfgWebB) ∧
    (addModule id gDup cfgWebA =
      .error
        { kind := .configuration,
          message := "Module web is declared multiple times (in 'a-dir' and 'b-dir')",
          detail := ["a-dir", "b-dir"] } ∧
      jsLe "a-dir" "b-dir" = true) :=
  ⟨by decide, addModule_duplicate_reports_sorted_paths id gDup cfgWebA cfgWebB (by decide)⟩

/-- C2 (counterexample): with an entry already in the version cache, a call
to `resolveVersion` for a module that the content-hashing collaborator
reports as dirty still returns the cached version, not the freshly computed
one — the dirty state does not bypass the cache in `resolveVersion`
itself. -/
theorem resolveVersion_dirty_served_from_cache :
    vcsDirty.isDirty mcWeb = true ∧
    resolveVersion gCached vcsDirty mcWeb [] false = .ok (vCached, gCached) ∧
    vCached ≠ vcsDirty.resolve mcWeb [] := by
  refine ⟨rfl, ?_, by decide⟩
  decide

/-- C2 (amended): `resolveVersion` serves any cached version under the key
`(moduleName, sorted dependency names)` whenever `force` is false, regardless
of the dirty state reported by the content-hashing collaborator; the cache is
bypassed exactly when `force` is true, in which case the version is always
freshly computed (dirty handling lives inside the collaborator's
computation, whose result — dirty or not — is itself cached). -/
theorem resolveVersion_cache_bypassed_only_by_force (g : GardenState)
    (vcs : VcsHandlerModel) (moduleConfig : ModuleConfig)
    (moduleDependencies : List DepRef) (v : ModuleVersion)
    (h : g.cache.get (versionCacheKey moduleConfig moduleDependencies) = some v) :
    resolveVersion g vcs moduleConfig moduleDependencies false = .ok (v, g) ∧
    resolveVersion g vcs moduleConfig moduleDependencies true =
      computeModuleVersion g vcs moduleConfig moduleDependencies := by
  constructor
  · simp [resolveVersion, h]
  · simp [resolveVersion]

/-- Witness for the amended C2: the cached `web` version is returned as-is
for a dirty module, and `force` reaches the computing path. -/
theorem resolveVersion_cache_bypassed_only_by_force_witness :
    (gCached.cache.get (versionCacheKey mcWeb []) = some vCached) ∧
    (resolveVersion gCached vcsDirty mcWeb [] false = .ok (vCached, gCached) ∧
     resolveVersion gCached vcsDirty mcWeb [] true =
       computeModuleVersion gCached vcsDirty mcWeb []) :=
  ⟨by decide, resolveVersion_cache_bypassed_only_by_force gCached vcsDirty mcWeb [] vCached
    (by decide)⟩

/-- C9: a successful `dumpConfig` returns the module configs sorted by name,
the workflow configs sorted by name, the providers with their internal tool
handles omitted, and copies `environmentName`, `namespace`, `variables`,
`projectRoot` and `projectId` from the orchestrator. -/
theorem dumpConfig_shape (info : GardenInfo) (graph : ConfigGraph)
    (includeDisabled : Bool) (workflowConfigs : List WorkflowConfig)
    (providers : List Provider) :
    let dump := dumpConfig info graph includeDisabled workflowConfigs providers
    List.Sorted (jsLeOn ModuleConfig.name) dump.moduleConfigs ∧
    List.Perm dump.moduleConfigs
      ((graph.getModules includeDisabled).map (fun m => m.config)) ∧
    List.Sorted (jsLeOn WorkflowConfig.name) dump.workflowConfigs ∧
    List.Perm dump.workflowConfigs workflowConfigs ∧
    dump.providers = providers.map omitTools ∧
    dump.environmentName = info.environmentName ∧
    dump.namespaceName = info.namespaceName ∧
    dump.projectVariables = info.projectVariables ∧
    dump.projectRoot = info.projectRoot ∧
    dump.projectId = info.projectId := by
  refine ⟨List.sorted_insertionSort _ _, List.perm_insertionSort _ _,
    List.sorted_insertionSort _ _, List.perm_insertionSort _ _, rfl, rfl, rfl, rfl, rfl, rfl⟩

/-- C10: `resolveProvider` called with the reserved name `_default` returns
the built-in default provider immediately, with the state unchanged,
independently of the resolved-provider registry, of the provider configs and
of the task-processing engine (so no provider resolution is triggered). -/
theorem resolveProvider_default_shortcut (relConfigPath : String → String)
    (g : GardenState) (runTasks : Bool → List String → List TaskResult)
    (providerConfigs : List ProviderConfig) :
    resolveProvider relConfigPath g runTasks providerConfigs "_default" =
      (.ok defaultProvider, g) := by
  simp [resolveProvider]

/-! ## Further fixtures -/

/-- Dependency reference `a`. -/
def depA : DepRef := { name := "a" }

/-- Dependency reference `b`. -/
def depB : DepRef := { name := "b" }

/-- Module config `a`. -/
def mcA : ModuleConfig := { name := "a", path := "a" }

/-- Module config `b`. -/
def mcB : ModuleConfig := { name := "b", path := "b" }

/-- A state whose registry holds the configs `a`, `b` and `web`, with an
empty version cache. -/
def gAB : GardenState := { moduleConfigs := [("a", mcA), ("b", mcB), ("web", mcWeb)] }

/-- A stable content-hashing collaborator: the version string is a function
of the module name and the dependency names. -/
def vcsStable : VcsHandlerModel :=
  { resolve := fun mc deps =>
      { versionString := "v-" ++ mc.name ++ "-" ++
          String.intercalate "." (deps.map (fun d => d.name)) },
    isDirty := fun _ => false }

/-- The version `vcsStable` computes for `web` with dependencies `a`, `b`. -/
def vWebAB : ModuleVersion := { versionString := "v-web-a.b" }

/-- The state after the first `resolveVersion` call in the order-independence
witness: the computed version is cached under the sorted dependency names. -/
def gAfterAB : GardenState :=
  { gAB with cache := { entries :=
      [⟨["moduleVersions", "web", "a", "b"], vWebAB,
        [["path", "a"], ["path", "b"], ["path", "web"]]⟩] } }

/-- A single well-behaved provider config. -/
def cfgSolo : ProviderConfig := { name := "P" }

/-- Provider `P` depending on provider `Q`. -/
def cfgP : ProviderConfig := { name := "P", dependencyNames := ["Q"] }

/-- Provider `Q` depending on provider `P`: together with `cfgP` a
circular provider batch. -/
def cfgQ : ProviderConfig := { name := "Q", dependencyNames := ["P"] }

/-- A task engine in which provider `P` fails. -/
def runTasksFail : Bool → List String → List TaskResult :=
  fun _ _ => [{ name := "P", error := some "boom" }]

/-- A task engine that processes nothing. -/
def runTasksNoop : Bool → List String → List TaskResult := fun _ _ => []

/-- The error kind of a `resolveProviders` outcome, `none` on success. -/
def outcomeErrKind (o : ResolveProvidersOutcome) : Option ErrorKind :=
  match o.result with
  | .error e => some e.kind
  | .ok _ => none

/-- The error kind of an `Except` result, `none` on success. -/
def exceptErrKind (r : Except GardenError α) : Option ErrorKind :=
  match r with
  | .error e => some e.kind
  | .ok _ => none

/-- A resolved module `web` with no build dependencies. -/
def v0 : ModuleVersion := { versionString := "v0" }

/-- The resolved module `web`. -/
def webModule : Module := { config := mcWeb, version := v0 }

/-- A clean trivial content-hashing collaborator. -/
def vcsClean : VcsHandlerModel := { resolve := fun _ _ => v0, isDirty := fun _ => false }

/-- `web` after a plugin added a build dependency on the nonexistent module
`missing-module`. -/
def webMissing : Module := pushBuildDep "missing-module" webModule

/-- A task-key cycle over two modules, as (task type, module name) pairs. -/
def csSample : List (List (List (String × String))) :=
  [[[("resolve-module", "web"), ("resolve-module", "api")]]]

/-- Render (task type, module name) pairs as the internal task keys
`<taskType>.<moduleName>` that appear in a task-graph cycle report. -/
def encodeTaskKeys (cs : List (List (List (String × String)))) :
    List (List (List String)) :=
  cs.map (fun c => c.map (fun cycle => cycle.map (fun p => p.1 ++ "." ++ p.2)))

/-- The module-name components of the same cycle report. -/
def cycleModuleNames (cs : List (List (List (String × String)))) :
    List (List (List String)) :=
  cs.map (fun c => c.map (fun cycle => cycle.map (fun p => p.2)))

/-! ## Claim theorems (continued) -/

theorem resolveVersion_false_eq (g : GardenState) (vcs : VcsHandlerModel)
    (moduleConfig : ModuleConfig) (moduleDependencies : List DepRef) :
    resolveVersion g vcs moduleConfig moduleDependencies false =
      match g.cache.get (versionCacheKey moduleConfig moduleDependencies) with
      | some cached => .ok (cached, g)
      | none => computeModuleVersion g vcs moduleConfig moduleDependencies := by
  rfl

/-- C8: `resolveVersion` is deterministic and order-independent in its
dependency list: the cache key is built from the module name plus the
dependency names in sorted order (so permuting the dependencies leaves it
unchanged), and a second call with the same module config and any permutation
of the same dependencies returns the identical version and leaves the state
untouched. -/
theorem resolveVersion_deterministic_order_independent (g : GardenState)
    (vcs : VcsHandlerModel) (moduleConfig : ModuleConfig) (deps₁ deps₂ : List DepRef)
    (v₁ : ModuleVersion) (g₁ : GardenState)
    (hperm : List.Perm (deps₂.map DepRef.name) (deps₁.map DepRef.name))
    (h₁ : resolveVersion g vcs moduleConfig deps₁ false = .ok (v₁, g₁)) :
    versionCacheKey moduleConfig deps₂ = versionCacheKey moduleConfig deps₁ ∧
    resolveVersion g₁ vcs moduleConfig deps₂ false = .ok (v₁, g₁) := by
  have hkey : versionCacheKey moduleConfig deps₂ = versionCacheKey moduleConfig deps₁ := by
    unfold versionCacheKey
    rw [jsSortStrings_perm_eq hperm]
  refine ⟨hkey, ?_⟩
  rw [resolveVersion_false_eq] at h₁ ⊢
  rw [hkey]
  cases hget : g.cache.get (versionCacheKey moduleConfig deps₁) with
  | some c =>
    simp only [hget, Except.ok.injEq, Prod.mk.injEq] at h₁
    obtain ⟨hc, hg⟩ := h₁
    rw [← hg, hget, hc]
  | none =>
    simp only [hget] at h₁
    simp only [computeModuleVersion] at h₁
    cases hpick : pickModuleConfigs g
        (deps₁.map (fun dep => getModuleKey dep.name dep.plugin)) with
    | error e =>
      simp [hpick] at h₁
    | ok depCfgs =>
      simp only [hpick, Except.ok.injEq, Prod.mk.injEq] at h₁
      obtain ⟨hv, hg⟩ := h₁
      rw [← hg]
      simp only [TreeCache.get_set, hv]

/-- Witness for C8: resolving `web` against `[a, b]` and then against
`[b, a]` yields the same version string and cache key. -/
theorem resolveVersion_deterministic_order_independent_witness :
    List.Perm ([depB, depA].map DepRef.name) ([depA, depB].map DepRef.name) ∧
    resolveVersion gAB vcsStable mcWeb [depA, depB] false = .ok (vWebAB, gAfterAB) ∧
    (versionCacheKey mcWeb [depB, depA] = versionCacheKey mcWeb [depA, depB] ∧
     resolveVersion gAfterAB vcsStable mcWeb [depB, depA] false = .ok (vWebAB, gAfterAB)) :=
  ⟨by decide, by decide,
    resolveVersion_deterministic_order_independent gAB vcsStable mcWeb [depA, depB]
      [depB, depA] vWebAB gAfterAB (by decide) (by decide)⟩

/-- C4: whenever at least one provider task errors, `resolveProviders`
raises one fatal `PluginError` whose message lists every failed provider and
whose detail carries each failed provider with its message, returns no
provider set, and leaves the orchestrator state unchanged. -/
theorem resolveProviders_failure_aggregation (relConfigPath : String → String)
    (g : GardenState) (runTasks : Bool → List String → List TaskResult)
    (providerConfigs : List ProviderConfig) (forceInit : Bool)
    (hnotshort : ¬((providerConfigs.map (fun c => c.name)).filterMap
        (fun n => g.resolvedProviders.lookup n)).length =
        (providerConfigs.map (fun c => c.name)).length)
    (hnocycles : (buildValidationGraph providerConfigs).detectCircularDependencies = [])
    (hfail : (runTasks forceInit (providerConfigs.map (fun c => c.name))).filter
        (fun r => r.error.isSome) ≠ []) :
    let taskResults := runTasks forceInit (providerConfigs.map (fun c => c.name))
    let failed := taskResults.filter (fun r => r.error.isSome)
    let outcome := resolveProviders relConfigPath g runTasks providerConfigs forceInit none
    outcome.result = .error (failedProvidersError failed) ∧
    outcome.state = g ∧
    (failedProvidersError failed).kind = ErrorKind.plugin ∧
    (failedProvidersError failed).message = "Failed resolving one or more providers:\n- "
      ++ String.intercalate "\n- " (failed.map (fun r => r.name)) ∧
    (failedProvidersError failed).detail = failed.map providerFailLine := by
  intro taskResults failed outcome
  have houtcome : outcome =
      { result := .error (failedProvidersError failed), state := g,
        tasksCreated := providerConfigs.map (fun c => c.name),
        tasksProcessed := taskResults.map (fun r => r.name) } := by
    show resolveProviders relConfigPath g runTasks providerConfigs forceInit none = _
    dsimp only [resolveProviders]
    rw [if_neg hnotshort, if_pos hnocycles, if_neg hfail]
  exact ⟨by rw [houtcome], by rw [houtcome], rfl, rfl, rfl⟩

/-- Witness for C4: one provider whose task fails with `boom`; the run ends
in the aggregated `PluginError` and no state change. -/
theorem resolveProviders_failure_aggregation_witness :
    ((runTasksFail false ([cfgSolo].map (fun c => c.name))).filter
      (fun r => r.error.isSome) ≠ []) ∧
    ((resolveProviders id {} runTasksFail [cfgSolo] false none).result =
      .error (failedProvidersError ((runTasksFail false ([cfgSolo].map (fun c => c.name))).filter
        (fun r => r.error.isSome))) ∧
     (resolveProviders id {} runTasksFail [cfgSolo] false none).state = {} ∧
     (failedProvidersError ((runTasksFail false ([cfgSolo].map (fun c => c.name))).filter
        (fun r => r.error.isSome))).kind = ErrorKind.plugin ∧
     (failedProvidersError ((runTasksFail false ([cfgSolo].map (fun c => c.name))).filter
        (fun r => r.error.isSome))).message = "Failed resolving one or more providers:\n- "
       ++ String.intercalate "\n- " (((runTasksFail false ([cfgSolo].map (fun c => c.name))).filter
        (fun r => r.error.isSome)).map (fun r => r.name)) ∧
     (failedProvidersError ((runTasksFail false ([cfgSolo].map (fun c => c.name))).filter
        (fun r => r.error.isSome))).detail = ((runTasksFail false ([cfgSolo].map (fun c => c.name))).filter
        (fun r => r.error.isSome)).map providerFailLine) :=
  ⟨by decide,
    resolveProviders_failure_aggregation id {} runTasksFail [cfgSolo] false
      (by decide) (by decide) (by decide)⟩

/-- C6: when the provider dependency-validation graph has a cycle,
`resolveProviders` (on a batch that is not already fully resolved) rejects
the whole batch with the cycle error before creating or processing any
`ResolveProviderTask`, for every possible task engine. -/
theorem resolveProviders_cycle_prepass_blocks_tasks (relConfigPath : String → String)
    (g : GardenState) (runTasks : Bool → List String → List TaskResult)
    (providerConfigs : List ProviderConfig) (forceInit : Bool)
    (hnotshort : ¬((providerConfigs.map (fun c => c.name)).filterMap
        (fun n => g.resolvedProviders.lookup n)).length =
        (providerConfigs.map (fun c => c.name)).length)
    (hcycles : (buildValidationGraph providerConfigs).detectCircularDependencies ≠ []) :
    resolveProviders relConfigPath g runTasks providerConfigs forceInit none =
      { result := .error (providerCycleError
            ((buildValidationGraph providerConfigs).detectCircularDependencies)),
        state := g, tasksCreated := [], tasksProcessed := [] } := by
  dsimp only [resolveProviders]
  rw [if_neg hnotshort, if_neg hcycles]

/-- Witness for C6: the circular batch `P ↔ Q` is rejected with no task
created or processed. -/
theorem resolveProviders_cycle_prepass_blocks_tasks_witness :
    ((buildValidationGraph [cfgP, cfgQ]).detectCircularDependencies ≠ []) ∧
    resolveProviders id {} runTasksNoop [cfgP, cfgQ] false none =
      { result := .error (providerCycleError
            ((buildValidationGraph [cfgP, cfgQ]).detectCircularDependencies)),
        state := {}, tasksCreated := [], tasksProcessed := [] } :=
  ⟨by decide,
    resolveProviders_cycle_prepass_blocks_tasks id {} runTasksNoop [cfgP, cfgQ] false
      (by decide) (by decide)⟩

/-- C5 (counterexample): a circular-dependency failure between the providers
`P ↔ Q` is surfaced as a `PluginError`, not as a `ConfigurationError` — so
not every circular-dependency resolution failure is a
`ConfigurationError`. -/
theorem provider_cycle_surfaced_as_plugin_error :
    outcomeErrKind (resolveProviders id {} runTasksNoop [cfgP, cfgQ] false none) =
      some ErrorKind.plugin ∧
    ¬outcomeErrKind (resolveProviders id {} runTasksNoop [cfgP, cfgQ] false none) =
      some ErrorKind.configuration := by
  decide

/-- C5 (amended): circular dependencies among module configurations are
surfaced as a `ConfigurationError`, while circular dependencies among
providers are surfaced as a `PluginError`. -/
theorem cycle_error_classification :
    (∀ err : TaskGraphError, err.type = "circular-dependencies" →
      handleModuleTaskResults (.error err) = .error (.inr (moduleCyclesError err.cycles)) ∧
      (moduleCyclesError err.cycles).kind = ErrorKind.configuration) ∧
    (∀ (relConfigPath : String → String) (g : GardenState)
        (runTasks : Bool → List String → List TaskResult)
        (providerConfigs : List ProviderConfig) (forceInit : Bool),
      ¬((providerConfigs.map (fun c => c.name)).filterMap
          (fun n => g.resolvedProviders.lookup n)).length =
          (providerConfigs.map (fun c => c.name)).length →
      (buildValidationGraph providerConfigs).detectCircularDependencies ≠ [] →
      (resolveProviders relConfigPath g runTasks providerConfigs forceInit none).result =
        .error (providerCycleError
          ((buildValidationGraph providerConfigs).detectCircularDependencies)) ∧
      (providerCycleError
        ((buildValidationGraph providerConfigs).detectCircularDependencies)).kind =
        ErrorKind.plugin) := by
  constructor
  · intro err herr
    refine ⟨?_, rfl⟩
    simp [handleModuleTaskResults, herr]
  · intro relConfigPath g runTasks providerConfigs forceInit hnotshort hcycles
    refine ⟨?_, rfl⟩
    have : resolveProviders relConfigPath g runTasks providerConfigs forceInit none =
        { result := .error (providerCycleError
              ((buildValidationGraph providerConfigs).detectCircularDependencies)),
          state := g, tasksCreated := [], tasksProcessed := [] } := by
      dsimp only [resolveProviders]
      rw [if_neg hnotshort, if_neg hcycles]
    rw [this]

/-- Witness for the amended C5: a module-task cycle error becomes a
`ConfigurationError`, the provider cycle `P ↔ Q` a `PluginError`. -/
theorem cycle_error_classification_witness :
    (handleModuleTaskResults (.error { cycles := encodeTaskKeys csSample }) =
      .error (.inr (moduleCyclesError (encodeTaskKeys csSample))) ∧
     (moduleCyclesError (encodeTaskKeys csSample)).kind = ErrorKind.configuration) ∧
    ((resolveProviders id {} runTasksNoop [cfgP, cfgQ] false none).result =
      .error (providerCycleError
        ((buildValidationGraph [cfgP, cfgQ]).detectCircularDependencies)) ∧
     (providerCycleError
        ((buildValidationGraph [cfgP, cfgQ]).detectCircularDependencies)).kind =
       ErrorKind.plugin) :=
  ⟨cycle_error_classification.1 { cycles := encodeTaskKeys csSample } (by decide),
   cycle_error_classification.2 id {} runTasksNoop [cfgP, cfgQ] false
     (by decide) (by decide)⟩

theorem stripKey_encoded {t n : String} (ht : '.' ∉ t.data) (hn : '.' ∉ n.data) :
    stripKey (t ++ "." ++ n) = n := by
  have hdata : (t ++ "." ++ n).data = t.data ++ '.' :: n.data := by
    rw [String.data_append, String.data_append]
    simp
  have hasn : List.asString n.data = n := String.asString_toList n
  unfold stripKey jsSplit
  rw [hdata, splitOnChar_append n.data ht, splitOnChar_no_sep hn]
  simp [hasn]

/-- C7: when module resolution fails with a circular-dependency task error,
`getConfigGraph` reports a `ConfigurationError` that describes each cycle
using module names only — the task-type prefix of every internal task key is
stripped off. -/
theorem module_cycle_error_strips_task_keys
    (cs : List (List (List (String × String)))) (msg : String)
    (h : ∀ c ∈ cs, ∀ cycle ∈ c, ∀ p ∈ cycle,
      ('.' ∉ (Prod.fst p).data) ∧ ('.' ∉ (Prod.snd p).data)) :
    handleModuleTaskResults (.error
        { type := "circular-dependencies", message := msg,
          cycles := encodeTaskKeys cs }) =
      .error (.inr (moduleCyclesError (encodeTaskKeys cs))) ∧
    (moduleCyclesError (encodeTaskKeys cs)).kind = ErrorKind.configuration ∧
    (moduleCyclesError (encodeTaskKeys cs)).cycles = cycleModuleNames cs := by
  refine ⟨by simp [handleModuleTaskResults], rfl, ?_⟩
  show (encodeTaskKeys cs).map (fun c => c.map (fun cycle => cycle.map stripKey)) =
    cycleModuleNames cs
  unfold encodeTaskKeys cycleModuleNames
  rw [List.map_map]
  apply List.map_congr_left
  intro c hc
  simp only [Function.comp_apply]
  rw [List.map_map]
  apply List.map_congr_left
  intro cycle hcycle
  simp only [Function.comp_apply]
  rw [List.map_map]
  apply List.map_congr_left
  intro p hp
  simp only [Function.comp_apply]
  exact stripKey_encoded (h c hc cycle hcycle p hp).1 (h c hc cycle hcycle p hp).2

/-- Witness for C7: a `resolve-module.web <- resolve-module.api` cycle is
reported as a `ConfigurationError` over the names `web` and `api` only. -/
theorem module_cycle_error_strips_task_keys_witness :
    handleModuleTaskResults (.error
        { type := "circular-dependencies", message := "",
          cycles := encodeTaskKeys csSample }) =
      .error (.inr (moduleCyclesError (encodeTaskKeys csSample))) ∧
    (moduleCyclesError (encodeTaskKeys csSample)).kind = ErrorKind.configuration ∧
    (moduleCyclesError (encodeTaskKeys csSample)).cycles = cycleModuleNames csSample :=
  module_cycle_error_strips_task_keys csSample "" (by decide)

/-- C1 (counterexample): a plugin adds the build dependency
`by: "web", on: "missing-module"` with `web` present among the resolved
modules; the resolution does not fail with a `PluginError` — it fails later,
at `ConfigGraph` construction, with a `ConfigurationError`. -/
theorem augment_missing_on_not_plugin_error :
    exceptErrKind (augmentAndFinalizeGraph "my-plugin" vcsClean {} [webModule]
      [{ byModule := "web", onModule := "missing-module" }]) =
      some ErrorKind.configuration ∧
    ¬exceptErrKind (augmentAndFinalizeGraph "my-plugin" vcsClean {} [webModule]
      [{ byModule := "web", onModule := "missing-module" }]) =
      some ErrorKind.plugin := by
  decide

/-- C1 (amended): during graph augmentation only the `by` module of an added
build dependency is validated — a missing `by` module is a fatal
`PluginError` naming the plugin, the `by` module and the `on` module; when
`by` exists, the edge is added without error even if the `on` target does
not exist, and a missing `on` target is caught afterwards, at `ConfigGraph`
construction, as a `ConfigurationError`. -/
theorem augment_build_dependency_error_classification :
    (∀ (providerName : String) (mods : List Module) (dep : AddBuildDependency)
        (rest : List AddBuildDependency),
      mods.find? (fun m => m.name == dep.byModule) = none →
      applyAddBuildDependencies providerName mods (dep :: rest) =
        .error (missingByError providerName dep) ∧
      (missingByError providerName dep).kind = ErrorKind.plugin ∧
      (missingByError providerName dep).message =
        "Provider '" ++ providerName ++ "' added a build dependency by module '" ++
          dep.byModule ++ "' on '" ++ dep.onModule ++ "' but module '" ++ dep.byModule ++
          "' could not be found.") ∧
    (∀ (providerName : String) (mods : List Module) (dep : AddBuildDependency) (m : Module),
      mods.find? (fun m' => m'.name == dep.byModule) = some m →
      applyAddBuildDependencies providerName mods [dep] =
        .ok (updateFirst (fun m' => m'.name == dep.byModule) (pushBuildDep dep.onModule)
          mods)) ∧
    (∀ mods : List Module, missingDepRefs mods ≠ [] →
      exceptErrKind (ConfigGraph.init mods) = some ErrorKind.configuration) := by
  refine ⟨?_, ?_, ?_⟩
  · intro providerName mods dep rest h
    refine ⟨?_, rfl, rfl⟩
    simp [applyAddBuildDependencies, h]
  · intro providerName mods dep m h
    simp [applyAddBuildDependencies, h]
  · intro mods h
    dsimp only [ConfigGraph.init]
    rw [if_neg h]
    rfl

/-- Witness for the amended C1: a missing `by` (`ghost`) raises the
`PluginError`; `by: "web", on: "missing-module"` with `web` present adds the
edge without error; the resulting module set is rejected at `ConfigGraph`
construction as a `ConfigurationError`. -/
theorem augment_build_dependency_error_classification_witness :
    (applyAddBuildDependencies "my-plugin" []
        [{ byModule := "ghost", onModule := "x" }] =
        .error (missingByError "my-plugin" { byModule := "ghost", onModule := "x" }) ∧
      (missingByError "my-plugin" { byModule := "ghost", onModule := "x" }).kind =
        ErrorKind.plugin ∧
      (missingByError "my-plugin" { byModule := "ghost", onModule := "x" }).message =
        "Provider 'my-plugin' added a build dependency by module 'ghost' on 'x' but module 'ghost' could not be found.") ∧
    (applyAddBuildDependencies "my-plugin" [webModule]
        [{ byModule := "web", onModule := "missing-module" }] =
        .ok (updateFirst (fun m' => m'.name == "web") (pushBuildDep "missing-module")
          [webModule])) ∧
    exceptErrKind (ConfigGraph.init [webMissing]) = some ErrorKind.configuration :=
  ⟨augment_build_dependency_error_classification.1 "my-plugin" []
      { byModule := "ghost", onModule := "x" } [] (by decide),
   augment_build_dependency_error_classification.2.1 "my-plugin" [webModule]
      { byModule := "web", onModule := "missing-module" } webModule (by decide),
   augment_build_dependency_error_classification.2.2 [webMissing] (by decide)⟩

end Garden
